import Mathlib

/-!
# Verification of the SolToolkit SDK endpoint-selection and submission core

A shallow embedding of the `ConnectionManager`, `TransactionWrapper`,
`SingleTransactionWrapper` and `TransactionBuilder` modules of the
SolToolkit TypeScript SDK, together with theorems settling the spec's
claims about them.  Network calls are abstracted into explicit oracles
(a `probe` function standing for the RPC round trip, a `script` of
attempt outcomes standing for send/confirm results), and JavaScript
runtime behaviours that matter to the claims — array truthiness,
negative indexing, in-place stable `sort`, reference aliasing of
arrays — are modelled explicitly.
-/

set_option autoImplicit false

namespace SolToolkit

/-! ## JavaScript array / sort modelling helpers -/

/-- JavaScript array indexing `l[i]` with a possibly negative index:
any out-of-range or negative index yields `undefined` (here `none`).
In particular `l[-1]` is `undefined`, not the last element. -/
def jsGet {α : Type} (l : List α) (i : Int) : Option α :=
  if i < 0 then none else l[i.toNat]?

/-- One insertion step of a stable insertion sort: `x` is placed before the
first element `y` with `le x y`. -/
def jsSortInsert {α : Type} (le : α → α → Bool) (x : α) : List α → List α
  | [] => [x]
  | y :: ys => if le x y then x :: y :: ys else y :: jsSortInsert le x ys

/-- Model of JavaScript `Array.prototype.sort(cmp)`.  The ECMAScript spec
requires the sort to be stable, and for a consistent comparator every
stable sort produces the same output, so a stable insertion sort with
`le a b := cmp a b ≤ 0` is an exact model. -/
def jsSort {α : Type} (le : α → α → Bool) (l : List α) : List α :=
  l.foldr (jsSortInsert le) []

/-! ## SingleTransactionWrapper (src/package/src/modules/SingleTransactionWrapper.ts)

Only the submission-target logic of `send`/`sendTransaction` is embedded:
connections are identified by their endpoint string, and the embedding of
`sendTransaction` returns the endpoint that actually receives the raw
transaction bytes. -/

/-- The three runtime representations a wrapped transaction can have
(`Transaction`, `VersionedTransaction`, or an already-serialized `Buffer`). -/
inductive TxKind
  | legacy
  | versioned
  | serialized
deriving DecidableEq, Repr

namespace SingleTransactionWrapper

/-- Embedding of the private `sendTransaction(skipPreflight, connection)` method.
The source reassigns `connection = connection || this._connections[0]` but then
every branch sends via `this._connections[0]`, so the `connection` argument is
dead: the returned value is the endpoint that receives the send. -/
def sendTransactionTarget (connections : List String) (txKind : TxKind)
    (connection : String) : Option String :=
  let _deadLocal := connection
  match txKind with
  | .legacy => connections[0]?
  | .versioned => connections[0]?
  | .serialized => connections[0]?

/-- Embedding of the racing block of `send` under `shouldRaceSend = true`:
`this._connections.map(async (conn) => ... this.sendTransaction(skipPreflight, conn))`.
The result lists, per configured connection, the endpoint its send actually targets. -/
def raceSendTargets (connections : List String) (txKind : TxKind) : List (Option String) :=
  connections.map (fun conn => sendTransactionTarget connections txKind conn)

end SingleTransactionWrapper

/-! ## TransactionWrapper.sign (src/package/src/modules/TransactionWrapper.ts) -/

/-- An abstract signer (key holder); only its identity matters here. -/
abbrev SignerT := Nat

/-- An abstract transaction: an identity plus the signatures applied so far. -/
structure Tx where
  id : Nat
  signatures : List SignerT
deriving DecidableEq, Repr

/-- `tx.sign(signer)` appends a signature in place. -/
def Tx.signWith (t : Tx) (s : SignerT) : Tx :=
  { t with signatures := t.signatures ++ [s] }

/-- A wallet's async `signTransaction`, which may resolve to `undefined`
(modelled by `none`), as the `IWallet` interface allows. -/
abbrev Wallet := Tx → Option Tx

namespace TransactionWrapper

/-- Embedding of `sign({wallet, signers, tx})`.  The wallet branch executes
`var signedTx = await wallet.signTransaction(tx); return signedTx!;` — the `!`
is only a type-level non-null assertion, so an `undefined` wallet result is
returned as a successful `none`, not turned into an error. -/
def sign (wallet : Option Wallet) (signers : Option (List SignerT)) (tx : Tx) :
    Except String (Option Tx) :=
  if wallet.isNone && signers.isNone then
    .error "No wallet or signers provided"
  else
    match wallet with
    | some w => .ok (w tx)
    | none =>
      match signers with
      | some ss => .ok (some (ss.foldl Tx.signWith tx))
      | none => .error "Wallet or Signer must be provided"

end TransactionWrapper

/-! ## TransactionWrapper.sendAndConfirm (src/package/src/modules/TransactionWrapper.ts)

Each iteration of the retry loop performs one submission attempt:
`sendTx` then `confirmTx`, both of which may throw a transport error, and
a returned confirmation whose `value.err` is non-null is turned into a
thrown `'RPC failure: ...'` error.  The catch block rethrows exactly the
`'RPC failure'` errors (terminal on-chain rejections) and otherwise logs
one retry warning and increments `tries`.  Since `tries` only ever
increases on a failed attempt, the attempt about to run is attempt
number `tries`, which is how the outcome `script` below is indexed. -/

/-- The outcome of one submission attempt, as scripted by the
environment: a thrown transport error during `sendTx`, a thrown
transport error during `confirmTx`, or a returned confirmation carrying
`value.err` (where `none` is the null error payload of a success).
Transport errors thrown by `web3.js` do not carry the internal
`'RPC failure'` message prefix, so the catch block always retries them. -/
inductive AttemptOutcome
  | sendThrow
  | confirmThrow
  | confirmed (sig : String) (err : Option String)
deriving DecidableEq, Repr

/-- Whether an outcome is a retryable transport failure. -/
def AttemptOutcome.isTransport : AttemptOutcome → Bool
  | .sendThrow => true
  | .confirmThrow => true
  | .confirmed _ _ => false

namespace TransactionWrapper

/-- The `while (tries < maximumRetries && !isTransactionConfirmed)` loop
of `sendAndConfirm`, with the post-loop
`'Transaction failed after N tries'` throw.  `fuel` only bounds the
recursion; `sendAndConfirm` supplies `maximumRetries + 1`, which the
guard `tries < maximumRetries` keeps from ever reaching the
(unreachable) zero-fuel branch.  Returns the result together with the
number of retry warnings logged. -/
def sendAndConfirmGo (script : Nat → AttemptOutcome) (maximumRetries : Nat) :
    Nat → Nat → Nat → (Except String String) × Nat
  | 0, tries, warns =>
    (.error ("Transaction failed after " ++ toString tries ++ " tries"), warns)
  | fuel + 1, tries, warns =>
    if tries < maximumRetries then
      match script tries with
      | .confirmed sig none => (.ok sig, warns)
      | .confirmed _ (some e) => (.error ("RPC failure: " ++ e), warns)
      | .sendThrow => sendAndConfirmGo script maximumRetries fuel (tries + 1) (warns + 1)
      | .confirmThrow => sendAndConfirmGo script maximumRetries fuel (tries + 1) (warns + 1)
    else
      (.error ("Transaction failed after " ++ toString tries ++ " tries"), warns)

/-- `sendAndConfirm({serialisedTx, maximumRetries, commitment})` over a
script of attempt outcomes: the returned value is the confirmed
signature or the thrown error, paired with the count of logged retry
warnings. -/
def sendAndConfirm (script : Nat → AttemptOutcome) (maximumRetries : Nat) :
    (Except String String) × Nat :=
  sendAndConfirmGo script maximumRetries (maximumRetries + 1) 0 0

end TransactionWrapper

/-! ## TransactionBuilder (src/package/src/modules/TransactionBuilder.ts)

The builder's `_instructions` field and each `Transaction`'s
`instructions` field are JavaScript array *references*.  `build()`
assigns `this._transaction.instructions = this._instructions` — an
aliasing assignment, not a copy — so whether a later builder operation
mutates an already-built transaction depends on whether it mutates the
shared array in place (`unshift`) or rebinds the builder's field to a
fresh array (`concat`, `reset`).  Arrays therefore live in an explicit
store and are named by references. -/

/-- An instruction, abstracted to the constructors the builder emits. -/
inductive Ix
  | transfer (fromKey toKey : Nat) (lamports : Nat)
  | computeUnitLimit (units : Nat)
  | computeUnitPrice (microLamports : Nat)
  | memo (data : String)
  | raw (tag : Nat)
deriving DecidableEq, Repr

/-- A reference to an instruction array in the store. -/
abbrev ArrRef := Nat

/-- A heap of instruction arrays, addressed by allocation order. -/
structure Store where
  arrays : List (List Ix)
deriving DecidableEq, Repr

/-- Allocate a fresh array; its reference is the previous store size. -/
def Store.alloc (s : Store) (a : List Ix) : Store × ArrRef :=
  (⟨s.arrays ++ [a]⟩, s.arrays.length)

/-- Dereference (out-of-store references read as the empty array). -/
def Store.read (s : Store) (r : ArrRef) : List Ix :=
  (s.arrays[r]?).getD []

/-- Mutate the array at a reference in place. -/
def Store.write (s : Store) (r : ArrRef) (a : List Ix) : Store :=
  ⟨s.arrays.set r a⟩

/-- The builder together with its array heap: `transactionIxs` is the
`instructions` array currently held by `this._transaction`, and
`instructions` is `this._instructions`. -/
structure TransactionBuilder where
  store : Store
  transactionIxs : ArrRef
  instructions : ArrRef
deriving DecidableEq, Repr

namespace TransactionBuilder

/-- `TransactionBuilder.create()`: a fresh `Transaction` (with its own
fresh `instructions` array) and a fresh empty `_instructions` array. -/
def create : TransactionBuilder :=
  let (s1, rTx) := Store.alloc ⟨[]⟩ []
  let (s2, rIns) := s1.alloc []
  { store := s2, transactionIxs := rTx, instructions := rIns }

/-- `addIx(instruction)`:
`this._instructions = this._instructions.concat(instruction)` — `concat`
returns a *new* array, so the builder's field is rebound and no existing
array is mutated. -/
def addIx (b : TransactionBuilder) (instruction : List Ix) : TransactionBuilder :=
  let (store', r) := b.store.alloc (b.store.read b.instructions ++ instruction)
  { b with store := store', instructions := r }

/-- `addSolTransferIx({from, to, amountLamports})`. -/
def addSolTransferIx (b : TransactionBuilder) (fromKey toKey lamports : Nat) :
    TransactionBuilder :=
  b.addIx [Ix.transfer fromKey toKey lamports]

/-- `addComputeBudgetIx({units, priceInMicroLamports})`:
`this._instructions.unshift(modifyComputeUnits, addPriorityFee)` —
`unshift` mutates the array *in place*, prepending both instructions. -/
def addComputeBudgetIx (b : TransactionBuilder) (units priceInMicroLamports : Nat) :
    TransactionBuilder :=
  let modifyComputeUnits := Ix.computeUnitLimit units
  let addPriorityFee := Ix.computeUnitPrice priceInMicroLamports
  { b with
    store := b.store.write b.instructions
      (modifyComputeUnits :: addPriorityFee :: b.store.read b.instructions) }

/-- `reset()`: rebinds `this._transaction` to a fresh `Transaction` and
`this._instructions` to a fresh empty array; previously allocated arrays
are untouched. -/
def reset (b : TransactionBuilder) : TransactionBuilder :=
  let (s1, rTx) := b.store.alloc []
  let (s2, rIns) := s1.alloc []
  { store := s2, transactionIxs := rTx, instructions := rIns }

/-- `build()`: `this._transaction.instructions = this._instructions;
return this._transaction` — the returned transaction's instruction list
is the builder's own array (aliased, not copied).  The second component
is the reference held by the returned transaction. -/
def build (b : TransactionBuilder) : TransactionBuilder × ArrRef :=
  ({ b with transactionIxs := b.instructions }, b.instructions)

end TransactionBuilder

/-! ## ConnectionManager (src/unnamed/part_002)

Connections are identified by their `rpcEndpoint` string (the only
observable of a `web3.js` `Connection` that the manager's control flow
reads).  The network round trip of `getLatestBlockhashAndContext` is
abstracted into a `probe` oracle: `some d` is a successful response with
its measured latency / slot / last-valid-block-height, `none` is any
transport failure (the `catch` branch).  `Math.random()`-driven index
choices are abstracted into an explicit `rand` argument.  Logging,
commitment levels and the extra `ConnectionConfig` options are elided:
they do not influence which endpoint any operation binds or returns. -/

/-- An endpoint URL; equality is string equality. -/
abbrev Endpoint := String

/-- The data a successful probe of one endpoint yields. -/
structure ProbeData where
  speedMs : Int
  currentSlot : Int
  lastValidBlockHeight : Int
deriving DecidableEq, Repr

/-- The `IRPCSummary` record: one probe result.  When `isReachable` is
false all numeric fields are `undefined` (`none`). -/
structure IRPCSummary where
  endpoint : Endpoint
  isReachable : Bool
  speedMs : Option Int
  currentSlot : Option Int
  lastValidBlockHeight : Option Int
deriving DecidableEq, Repr

/-- The `Mode` union type of selection policies. -/
inductive Mode
  | single
  | first
  | last
  | roundRobin
  | random
  | fastest
  | highestSlot
  | latestValidBlockHeight
deriving DecidableEq, Repr

/-- The caller-supplied part of `IConnectionManagerConstructor`
(`Omit<..., 'rpcSummary'>` as taken by `getInstance`). -/
structure IConnectionManagerConstructor where
  network : String
  endpoint : Option Endpoint
  endpoints : Option (List Endpoint)
  mode : Mode
deriving DecidableEq, Repr

/-- The manager's mutable state: the bound connection (by endpoint),
the three derived endpoint pointers, the fixed config and the stored
`_rpcSummary` snapshot. -/
structure ConnectionManagerState where
  connection : Endpoint
  fastestEndpoint : Endpoint
  highestSlotEndpoint : Endpoint
  latestValidBlockHeightEndpoint : Endpoint
  config : IConnectionManagerConstructor
  rpcSummary : List IRPCSummary
deriving DecidableEq, Repr

namespace ConnectionManager

/-- `getDefaultEndpoint(network)`: throws on an unknown network. -/
def getDefaultEndpoint (network : String) : Except String Endpoint :=
  match network with
  | "mainnet-beta" => .ok "https://api.mainnet-beta.solana.com"
  | "testnet" => .ok "https://api.testnet.solana.com"
  | "devnet" => .ok "https://api.devnet.solana.com"
  | "localnet" => .ok "http://localhost:8899"
  | _ => .error ("Invalid network: " ++ network)

/-- The concurrent probe loop inside the static `getEndpointsSummary`:
one task per endpoint, results in input order; a successful
`getLatestBlockhashAndContext` yields all numeric fields, any thrown
error yields an unreachable record. -/
def probeAll (probe : Endpoint → Option ProbeData) (endpoints : List Endpoint) :
    List IRPCSummary :=
  endpoints.map fun endpoint =>
    match probe endpoint with
    | some d =>
      { endpoint := endpoint, isReachable := true, speedMs := some d.speedMs,
        currentSlot := some d.currentSlot,
        lastValidBlockHeight := some d.lastValidBlockHeight }
    | none =>
      { endpoint := endpoint, isReachable := false, speedMs := none,
        currentSlot := none, lastValidBlockHeight := none }

/-- Static `getEndpointsSummary(endpoints)`: throws before issuing any
probe when the endpoints array is empty. -/
def getEndpointsSummaryStatic (probe : Endpoint → Option ProbeData)
    (endpoints : List Endpoint) : Except String (List IRPCSummary) :=
  if endpoints.length = 0 then .error "Endpoints array is empty"
  else .ok (probeAll probe endpoints)

/-- The endpoint list the member `getEndpointsSummary()` probes:
`this._config.endpoints || [this._connection.rpcEndpoint]` (an array is
truthy in JS even when empty, so only `undefined` falls back). -/
def memberProbeList (st : ConnectionManagerState) : List Endpoint :=
  match st.config.endpoints with
  | some es => es
  | none => [st.connection]

/-- Member `getEndpointsSummary()` (without its `this._rpcSummary`
update, which callers of this definition perform on success, matching
the assignment that runs only after the static call returns). -/
def getEndpointsSummaryMember (probe : Endpoint → Option ProbeData)
    (st : ConnectionManagerState) : Except String (List IRPCSummary) :=
  getEndpointsSummaryStatic probe (memberProbeList st)

/-- Comparator `(a, b) => a.speedMs! - b.speedMs!` as a stable-sort
`le`; the non-null assertion is modelled by `getD 0` (the field is
populated on every record the code applies it to). -/
def leSpeed (a b : IRPCSummary) : Bool :=
  decide ((a.speedMs.getD 0) ≤ (b.speedMs.getD 0))

/-- Comparator `(a, b) => a.currentSlot! - b.currentSlot!` (ascending). -/
def leSlotAsc (a b : IRPCSummary) : Bool :=
  decide ((a.currentSlot.getD 0) ≤ (b.currentSlot.getD 0))

/-- Comparator `(a, b) => b.currentSlot! - a.currentSlot!` (descending). -/
def leSlotDesc (a b : IRPCSummary) : Bool :=
  decide ((b.currentSlot.getD 0) ≤ (a.currentSlot.getD 0))

/-- Comparator `(a, b) => b.lastValidBlockHeight! - a.lastValidBlockHeight!`. -/
def leLvbhDesc (a b : IRPCSummary) : Bool :=
  decide ((b.lastValidBlockHeight.getD 0) ≤ (a.lastValidBlockHeight.getD 0))

/-- JS string truthiness: `undefined` and the empty string are falsy. -/
def strTruthy : Option String → Bool
  | some s => s ≠ ""
  | none => false

/-- `endpoints && endpoints.length > 0`. -/
def endpointsTruthyNonempty : Option (List Endpoint) → Bool
  | some es => es.length > 0
  | none => false

/-- The private constructor.  `endpointsSortedBySpeed` is the
`rpcSummary` argument.  The three derived endpoints are computed by
sorting the same (JS-mutable) reachable array three times in sequence;
reading `[0].endpoint` of an empty array throws a `TypeError`.  Then the
`switch (mode)` picks `rpcUrl`; `rpcUrl === undefined` afterwards throws
`'No endpoint has been set'` — which is what `endpoints[-1]` in the
`'last'` arm produces. -/
def construct (values : IConnectionManagerConstructor)
    (endpointsSortedBySpeed : List IRPCSummary) (rand : Nat) :
    Except String ConnectionManagerState := do
  let reachableEndpoints := endpointsSortedBySpeed.filter (fun e => e.isReachable = true)
  let sorted1 := jsSort leSpeed reachableEndpoints
  let fastestEndpoint ← match sorted1.head? with
    | some s => pure s.endpoint
    | none => .error "TypeError: cannot read endpoint of undefined"
  let sorted2 := jsSort leSlotDesc sorted1
  let highestSlotEndpoint ← match sorted2.head? with
    | some s => pure s.endpoint
    | none => .error "TypeError: cannot read endpoint of undefined"
  let sorted3 := jsSort leLvbhDesc sorted2
  let latestValidBlockHeightEndpoint ← match sorted3.head? with
    | some s => pure s.endpoint
    | none => .error "TypeError: cannot read endpoint of undefined"
  let rpcUrl : Option Endpoint ←
    match values.mode with
    | .single =>
      if strTruthy values.endpoint then pure values.endpoint
      else if endpointsTruthyNonempty values.endpoints then
        pure (jsGet (values.endpoints.getD []) 0)
      else do
        let d ← getDefaultEndpoint values.network
        pure (some d)
    | .first =>
      if endpointsTruthyNonempty values.endpoints then
        pure (jsGet (values.endpoints.getD []) 0)
      else .error "No endpoints provided with mode \"first\""
    | .last =>
      if endpointsTruthyNonempty values.endpoints then
        pure (jsGet (values.endpoints.getD []) (-1))
      else .error "No endpoints provided with mode \"last\""
    | .roundRobin =>
      if endpointsTruthyNonempty values.endpoints then
        pure (jsGet (values.endpoints.getD []) 0)
      else .error "No endpoints provided with mode \"round-robin\""
    | .fastest =>
      if fastestEndpoint ≠ "" then pure (some fastestEndpoint)
      else .error "No fastest endpoint provided with mode \"fastest\""
    | .highestSlot =>
      if highestSlotEndpoint ≠ "" then pure (some highestSlotEndpoint)
      else .error "No highest slot endpoint provided with mode \"highest-slot\""
    | .latestValidBlockHeight =>
      if latestValidBlockHeightEndpoint ≠ "" then pure (some latestValidBlockHeightEndpoint)
      else .error "No latest valid block height endpoint provided with mode \"latest-valid-block-height\""
    | .random =>
      if endpointsTruthyNonempty values.endpoints then
        pure (jsGet (values.endpoints.getD []) (rand % (values.endpoints.getD []).length))
      else .error "No endpoints provided with mode \"random\""
  match rpcUrl with
  | none => .error "No endpoint has been set"
  | some u =>
    pure
      { connection := u
        fastestEndpoint := if fastestEndpoint = "" then u else fastestEndpoint
        highestSlotEndpoint := if highestSlotEndpoint = "" then u else highestSlotEndpoint
        latestValidBlockHeightEndpoint :=
          if latestValidBlockHeightEndpoint = "" then u else latestValidBlockHeightEndpoint
        config := values
        rpcSummary := endpointsSortedBySpeed }

/-- `getInstance(values)` (first construction of the singleton): derives
the endpoint list (an explicit `endpoints` array is used even when
empty, since arrays are truthy), runs the static summary, fails on an
all-unreachable result, sorts the reachable records by speed and invokes
the constructor.  The second component is the list of endpoints that
were actually probed, in order — empty when the call fails before any
probe is issued. -/
def getInstance (probe : Endpoint → Option ProbeData) (rand : Nat)
    (values : IConnectionManagerConstructor) :
    (Except String ConnectionManagerState) × List Endpoint :=
  let endpointsE : Except String (List Endpoint) :=
    match values.endpoints with
    | some es => .ok es
    | none =>
      match values.endpoint with
      | some e => .ok [e]
      | none => (getDefaultEndpoint values.network).map (fun d => [d])
  match endpointsE with
  | .error e => (.error e, [])
  | .ok endpoints =>
    if endpoints.length = 0 then (.error "Endpoints array is empty", [])
    else
      let endpointsSummary := probeAll probe endpoints
      if endpointsSummary.all (fun s => s.isReachable = false) then
        (.error "No reachable endpoints", endpoints)
      else
        let endpointsSortedBySpeed :=
          jsSort leSpeed (endpointsSummary.filter (fun s => s.isReachable = true))
        (construct values endpointsSortedBySpeed rand, endpoints)

/-- The `'round-robin'` arm shared by `connSync` and `conn`:
`indexOf` of the current endpoint (`none` models `-1`), reset to index 0
when the current endpoint is the network default, advance with wrap
otherwise.  An `undefined` endpoints array makes `endpoints?.indexOf`
`undefined` and falls into the `'Current index is undefined'` throw. -/
def roundRobinNext (st : ConnectionManagerState) : Except String Endpoint :=
  match st.config.endpoints with
  | none => .error "Current index is undefined"
  | some es =>
    match es.indexOf? st.connection with
    | none =>
      match getDefaultEndpoint st.config.network with
      | .error e => .error e
      | .ok d =>
        if st.connection = d then
          match es[0]? with
          | some e => .ok e
          | none => .error "TypeError: connection to undefined endpoint"
        else .error "Current endpoint not found in endpoints array"
    | some i =>
      let nextIndex := if i + 1 ≥ es.length then 0 else i + 1
      match es[nextIndex]? with
      | some e => .ok e
      | none => .error "TypeError: connection to undefined endpoint"

/-- The `switch (this._config.mode)` of `connSync` (the cached,
synchronous path): ranked modes reuse the pointers stored at
initialization and never probe. -/
def connSyncSelect (st : ConnectionManagerState) (rand : Nat) : Except String Endpoint :=
  match st.config.mode with
  | .single | .first | .last => .ok st.connection
  | .highestSlot =>
    .ok (if st.connection ≠ st.highestSlotEndpoint then st.highestSlotEndpoint else st.connection)
  | .fastest =>
    .ok (if st.connection ≠ st.fastestEndpoint then st.fastestEndpoint else st.connection)
  | .roundRobin => roundRobinNext st
  | .latestValidBlockHeight =>
    .ok (if st.connection ≠ st.latestValidBlockHeightEndpoint then
          st.latestValidBlockHeightEndpoint else st.connection)
  | .random =>
    match st.config.endpoints with
    | none => .error "TypeError: cannot index undefined endpoints"
    | some es =>
      match es[rand % es.length]? with
      | some e => .ok e
      | none => .error "TypeError: connection to undefined endpoint"

/-- `connSync({changeConn, airdrop})`: with `changeConn = false` the
current connection is returned untouched; otherwise the selected
connection is assigned to `this._connection` just before returning.  A
throw anywhere leaves the state untouched (no assignment runs). -/
def connSync (st : ConnectionManagerState) (changeConn airdrop : Bool) (rand : Nat) :
    (Except String Endpoint) × ConnectionManagerState :=
  if !changeConn then (.ok st.connection, st)
  else
    let connE : Except String Endpoint :=
      if airdrop then getDefaultEndpoint st.config.network
      else connSyncSelect st rand
    match connE with
    | .error e => (.error e, st)
    | .ok c => (.ok c, { st with connection := c })

/-- The `switch (this._config.mode)` of the async `conn`: ranked modes
re-probe via the member `getEndpointsSummary()` (which stores the new
snapshot in `this._rpcSummary` before the all-unreachable check), then
re-rank.  This function performs every state mutation of the switch
except the final `this._connection` assignment, which `conn` adds.

Faithful quirks of the source preserved here:
* `'highest-slot'` sorts the reachable records by `currentSlot`
  *ascending* and picks index 0, i.e. the lowest-slot endpoint;
* the `'latest-valid-block-height'` arm has no `break` and falls
  through into `default`, which overwrites the chosen connection with
  the current one. -/
def connSelect (probe : Endpoint → Option ProbeData) (rand : Nat)
    (st : ConnectionManagerState) : (Except String Endpoint) × ConnectionManagerState :=
  match st.config.mode with
  | .single | .first | .last => (.ok st.connection, st)
  | .highestSlot =>
    (match getEndpointsSummaryMember probe st with
    | .error e => (.error e, st)
    | .ok endpointsSummary =>
      let st1 := { st with rpcSummary := endpointsSummary }
      if endpointsSummary.all (fun s => s.isReachable = false) then
        (.error "All endpoints unreachable", st1)
      else
        let reachableEndpoints :=
          jsSort leSlotAsc (endpointsSummary.filter (fun s => s.isReachable = true))
        match reachableEndpoints.head? with
        | none => (.error "TypeError: cannot read endpoint of undefined", st1)
        | some s0 =>
          let highestSlotEndpoint := s0.endpoint
          (.ok (if st1.connection ≠ highestSlotEndpoint then highestSlotEndpoint
                else st1.connection), st1))
  | .fastest =>
    (match getEndpointsSummaryMember probe st with
    | .error e => (.error e, st)
    | .ok endpointsSummary =>
      let st1 := { st with rpcSummary := endpointsSummary }
      if endpointsSummary.all (fun s => s.isReachable = false) then
        (.error "All endpoints unreachable", st1)
      else
        let reachableEndpoints :=
          jsSort leSpeed (endpointsSummary.filter (fun s => s.isReachable = true))
        match reachableEndpoints.head? with
        | none => (.error "TypeError: cannot read endpoint of undefined", st1)
        | some s0 =>
          let fastestEndpoint := s0.endpoint
          (.ok (if st1.connection ≠ fastestEndpoint then fastestEndpoint
                else st1.connection), st1))
  | .roundRobin => (roundRobinNext st, st)
  | .random =>
    (match st.config.endpoints with
    | none => (.error "TypeError: cannot index undefined endpoints", st)
    | some es =>
      match es[rand % es.length]? with
      | some e => (.ok e, st)
      | none => (.error "TypeError: connection to undefined endpoint", st))
  | .latestValidBlockHeight =>
    (match getEndpointsSummaryMember probe st with
    | .error e => (.error e, st)
    | .ok endpointsSummary =>
      let st1 := { st with rpcSummary := endpointsSummary }
      if endpointsSummary.all (fun s => s.isReachable = false) then
        (.error "All endpoints unreachable", st1)
      else
        -- the selected endpoint is computed but the missing `break`
        -- lets control fall into `default`, which resets
        -- `conn = this._connection`
        (.ok st1.connection, st1))

/-- Async `conn({changeConn, airdrop})`: as `connSync` but the ranked
modes re-probe.  The second component is the post-call state; on a
throw the `_rpcSummary` update (if reached) persists but
`this._connection` is never reassigned. -/
def conn (probe : Endpoint → Option ProbeData) (rand : Nat)
    (st : ConnectionManagerState) (changeConn airdrop : Bool) :
    (Except String Endpoint) × ConnectionManagerState :=
  if !changeConn then (.ok st.connection, st)
  else
    let step : (Except String Endpoint) × ConnectionManagerState :=
      if airdrop then (getDefaultEndpoint st.config.network, st)
      else connSelect probe rand st
    match step with
    | (.error e, st1) => (.error e, st1)
    | (.ok c, st1) => (.ok c, { st1 with connection := c })

end ConnectionManager

/-! ## Concrete probe oracles and scenario states used by the claims -/

deriving instance DecidableEq for Except

/-- Probe oracle for the round-robin scenario: three reachable endpoints. -/
def probeRR : Endpoint → Option ProbeData := fun e =>
  if e = "A" then some ⟨10, 5, 50⟩
  else if e = "B" then some ⟨20, 6, 60⟩
  else if e = "C" then some ⟨30, 7, 70⟩
  else none

/-- Round-robin configuration with endpoints `[A, B, C]`. -/
def cfgRR : IConnectionManagerConstructor :=
  ⟨"devnet", none, some ["A", "B", "C"], .roundRobin⟩

/-- Four sequential `connSync({changeConn: true})` results after
initializing with `cfgRR`. -/
def roundRobinRun : List (Except String Endpoint) :=
  match (ConnectionManager.getInstance probeRR 0 cfgRR).1 with
  | .error _ => []
  | .ok st0 =>
    let r1 := ConnectionManager.connSync st0 true false 0
    let r2 := ConnectionManager.connSync r1.2 true false 0
    let r3 := ConnectionManager.connSync r2.2 true false 0
    let r4 := ConnectionManager.connSync r3.2 true false 0
    [r1.1, r2.1, r3.1, r4.1]

/-- Probe oracle for the highest-slot scenario: endpoint `B` is at slot
10, endpoint `A` only at slot 5; both reachable. -/
def probeHS : Endpoint → Option ProbeData := fun e =>
  if e = "A" then some ⟨50, 5, 100⟩
  else if e = "B" then some ⟨60, 10, 200⟩
  else none

/-- Highest-slot configuration over `[A, B]`. -/
def cfgHS : IConnectionManagerConstructor :=
  ⟨"devnet", none, some ["A", "B"], .highestSlot⟩

/-- The manager state produced by initializing with `cfgHS`: bound to
`B`, the endpoint with the maximal slot. -/
def stHS : ConnectionManagerState :=
  match (ConnectionManager.getInstance probeHS 0 cfgHS).1 with
  | .ok st => st
  | .error _ => ⟨"", "", "", "", cfgHS, []⟩

/-! ## Claim C1 -/

/-- Claim C1 (code bug): a refreshing `conn()` in mode `'highest-slot'`
is supposed — per the mode's name, its doc comment ("uses the highest
slot endpoint") and the constructor's own descending sort — to rebind to
the reachable endpoint with the *maximal* slot.  The async `conn()`
however sorts the reachable summaries by `currentSlot` *ascending* and
picks index 0.  Here the manager is bound to `B` (slot 10, the maximum)
and a refreshing `conn()` re-probes and rebinds it to `A` (slot 5, the
minimum). -/
theorem c1_highest_slot_refresh_rebinds_to_minimum :
    probeHS "A" = some ⟨50, 5, 100⟩ ∧
    probeHS "B" = some ⟨60, 10, 200⟩ ∧
    stHS.connection = "B" ∧
    (ConnectionManager.conn probeHS 0 stHS true false).1 = .ok "A" ∧
    (ConnectionManager.conn probeHS 0 stHS true false).2.connection = "A" :=
  ⟨rfl, rfl, rfl, rfl, rfl⟩

/-! ## Claim C2 -/

/-- Claim C2 (code bug): with `shouldRaceSend = true` and configured
connections `[A, B]`, the race issues one send per configured
connection, but `sendTransaction` ignores its `connection` argument and
always sends via `this._connections[0]` — so both sends target `A` and
endpoint `B` never receives the transaction, contradicting "one send per
distinct connection". -/
theorem c2_race_sends_all_target_first_connection :
    SingleTransactionWrapper.raceSendTargets ["A", "B"] .legacy = [some "A", some "A"] ∧
    some "B" ∉ SingleTransactionWrapper.raceSendTargets ["A", "B"] .legacy := by
  refine ⟨rfl, ?_⟩
  decide

/-! ## Claim C4 -/

/-- Claim C4 counterexample: with policy round-robin over `[A, B, C]`,
the four sequential re-selection calls do *not* return `A, B, C, A`:
the constructor already binds `A`, and every `connSync({changeConn:
true})` call advances to the *next* endpoint before returning, so the
first call returns `B`. -/
theorem c4_round_robin_counterexample :
    roundRobinRun ≠ [.ok "A", .ok "B", .ok "C", .ok "A"] := by
  decide

/-- Claim C4 (amended): initialization binds `A`, and the four
sequential `connSync({changeConn: true})` calls return `B, C, A, B` —
each cached re-selection advances the rotation past the currently bound
endpoint. -/
theorem c4_round_robin_rotation :
    (ConnectionManager.getInstance probeRR 0 cfgRR).1.map (fun st => st.connection)
        = .ok "A" ∧
    roundRobinRun = [.ok "B", .ok "C", .ok "A", .ok "B"] :=
  ⟨rfl, rfl⟩

/-! ## Claim C5 -/

/-- A probe oracle under which only the devnet default endpoint answers. -/
def probeFallback : Endpoint → Option ProbeData := fun e =>
  if e = "https://api.devnet.solana.com" then some ⟨10, 1, 1⟩ else none

/-- Claim C5 counterexample: with mode `'first'` and an *absent* endpoint
list, `getInstance` falls back to `[getDefaultEndpoint(network)]`, probes
that endpoint (the probe trace is non-empty), and only afterwards does the
constructor raise the configuration error — contradicting "fails with a
configuration error before any network probe is issued". -/
theorem c5_absent_list_probes_before_error :
    ConnectionManager.getInstance probeFallback 0 ⟨"devnet", none, none, .first⟩
      = (.error "No endpoints provided with mode \"first\"",
          ["https://api.devnet.solana.com"]) ∧
    (ConnectionManager.getInstance probeFallback 0 ⟨"devnet", none, none, .first⟩).2 ≠ [] := by
  refine ⟨rfl, ?_⟩
  decide

namespace ConnectionManager

/-- The configuration-error message the constructor's mode switch throws
for a list-requiring mode when no endpoints array was supplied,
transcribed from the source's throw statements (empty for the modes that
do not require a list, which never throw this error). -/
def modeNoEndpointsError : Mode → String
  | .first => "No endpoints provided with mode \"first\""
  | .last => "No endpoints provided with mode \"last\""
  | .roundRobin => "No endpoints provided with mode \"round-robin\""
  | .random => "No endpoints provided with mode \"random\""
  | .single => ""
  | .fastest => ""
  | .highestSlot => ""
  | .latestValidBlockHeight => ""

/-- Claim C5 (amended): for every selection policy that requires an
endpoint list (`'first'`, `'last'`, `'round-robin'`, `'random'`):
with an *empty* endpoint list, `getInstance` fails with
`'Endpoints array is empty'` before any probe is issued (empty probe
trace); with an *absent* list, `getInstance` first probes the fallback
endpoint — the explicit `endpoint` if supplied, else the network
default — and only then fails: with the mode's own configuration error
(`'No endpoints provided with mode ...'`) when the fallback probe
succeeds, and with `'No reachable endpoints'` when it fails. -/
theorem c5_empty_or_absent_endpoint_list (m : Mode)
    (hm : m = .first ∨ m = .last ∨ m = .roundRobin ∨ m = .random)
    (probe : Endpoint → Option ProbeData) (rand : Nat) (network : String) :
    (∀ e? : Option Endpoint,
      getInstance probe rand ⟨network, e?, some [], m⟩
        = (.error "Endpoints array is empty", [])) ∧
    (∀ e : Endpoint,
      (getInstance probe rand ⟨network, some e, none, m⟩).2 = [e] ∧
      (probe e = none →
        (getInstance probe rand ⟨network, some e, none, m⟩).1
          = .error "No reachable endpoints") ∧
      (∀ pd : ProbeData, probe e = some pd →
        (getInstance probe rand ⟨network, some e, none, m⟩).1
          = .error (modeNoEndpointsError m))) ∧
    (∀ d : Endpoint, getDefaultEndpoint network = .ok d →
      (getInstance probe rand ⟨network, none, none, m⟩).2 = [d] ∧
      (probe d = none →
        (getInstance probe rand ⟨network, none, none, m⟩).1
          = .error "No reachable endpoints") ∧
      (∀ pd : ProbeData, probe d = some pd →
        (getInstance probe rand ⟨network, none, none, m⟩).1
          = .error (modeNoEndpointsError m))) := by
  refine ⟨?_, ?_, ?_⟩
  · intro e?
    rfl
  · intro e
    refine ⟨?_, ?_, ?_⟩
    · cases hp : probe e <;> simp [getInstance, probeAll, hp]
    · intro hp
      simp [getInstance, probeAll, hp]
    · intro pd hp
      rcases hm with rfl | rfl | rfl | rfl <;>
        simp [getInstance, probeAll, construct, hp, jsSort, jsSortInsert,
          endpointsTruthyNonempty, modeNoEndpointsError] <;>
          rfl
  · intro d hd
    refine ⟨?_, ?_, ?_⟩
    · cases hp : probe d <;> simp [getInstance, probeAll, hp, hd, Except.map]
    · intro hp
      simp [getInstance, probeAll, hp, hd, Except.map]
    · intro pd hp
      rcases hm with rfl | rfl | rfl | rfl <;>
        simp [getInstance, probeAll, construct, hp, hd, Except.map, jsSort, jsSortInsert,
          endpointsTruthyNonempty, modeNoEndpointsError] <;>
          rfl

end ConnectionManager

/-- Claim C5 witness: the amended claim evaluated at mode `'first'`:
an empty list fails without probing; an explicit but unreachable
endpoint `X` is probed and yields `'No reachable endpoints'`; the
reachable devnet default fallback is probed and yields the mode's own
configuration error. -/
theorem c5_empty_or_absent_endpoint_list_witness :
    ConnectionManager.getInstance probeFallback 0 ⟨"devnet", some "X", some [], .first⟩
      = (.error "Endpoints array is empty", []) ∧
    (ConnectionManager.getInstance probeFallback 0 ⟨"devnet", some "X", none, .first⟩).2
      = ["X"] ∧
    (ConnectionManager.getInstance probeFallback 0 ⟨"devnet", some "X", none, .first⟩).1
      = .error "No reachable endpoints" ∧
    (ConnectionManager.getInstance probeFallback 0 ⟨"devnet", none, none, .first⟩).2
      = ["https://api.devnet.solana.com"] ∧
    (ConnectionManager.getInstance probeFallback 0 ⟨"devnet", none, none, .first⟩).1
      = .error "No endpoints provided with mode \"first\"" :=
  ⟨(ConnectionManager.c5_empty_or_absent_endpoint_list .first (Or.inl rfl)
      probeFallback 0 "devnet").1 (some "X"),
   ((ConnectionManager.c5_empty_or_absent_endpoint_list .first (Or.inl rfl)
      probeFallback 0 "devnet").2.1 "X").1,
   ((ConnectionManager.c5_empty_or_absent_endpoint_list .first (Or.inl rfl)
      probeFallback 0 "devnet").2.1 "X").2.1 rfl,
   ((ConnectionManager.c5_empty_or_absent_endpoint_list .first (Or.inl rfl)
      probeFallback 0 "devnet").2.2 "https://api.devnet.solana.com" rfl).1,
   ((ConnectionManager.c5_empty_or_absent_endpoint_list .first (Or.inl rfl)
      probeFallback 0 "devnet").2.2 "https://api.devnet.solana.com" rfl).2.2
     ⟨10, 1, 1⟩ rfl⟩

/-! ## Claim C6 -/

namespace ConnectionManager

/-- If the probe oracle fails on every endpoint of a list, every summary
record it produces is unreachable. -/
theorem probeAll_unreachable (probe : Endpoint → Option ProbeData) (l : List Endpoint)
    (h : ∀ e ∈ l, probe e = none) :
    ∀ s ∈ probeAll probe l, s.isReachable = false := by
  intro s hs
  rw [probeAll] at hs
  obtain ⟨e, he, rfl⟩ := List.mem_map.1 hs
  simp [h e he]

/-- Boolean form of `probeAll_unreachable`, matching the
`summary.every((endpoint) => endpoint.isReachable === false)` check. -/
theorem probeAll_all_unreachable (probe : Endpoint → Option ProbeData) (l : List Endpoint)
    (h : ∀ e ∈ l, probe e = none) :
    ((probeAll probe l).all fun s => s.isReachable = false) = true :=
  List.all_eq_true.2 fun s hs => decide_eq_true (probeAll_unreachable probe l h s hs)

/-- The mode switch of the async `conn` never reassigns
`this._connection` itself (only the epilogue of `conn` does). -/
theorem connSelect_preserves_connection (probe : Endpoint → Option ProbeData) (rand : Nat)
    (st : ConnectionManagerState) :
    (connSelect probe rand st).2.connection = st.connection := by
  unfold connSelect
  repeat' (first | rfl | split | dsimp only)

/-- In a ranked mode, a re-probe that finds no reachable endpoint makes
the mode switch throw (either the empty-array guard of the static
summary or the `'All endpoints unreachable'` check). -/
theorem connSelect_error_of_unreachable (probe : Endpoint → Option ProbeData) (rand : Nat)
    (st : ConnectionManagerState)
    (hm : st.config.mode = .highestSlot ∨ st.config.mode = .fastest ∨
      st.config.mode = .latestValidBlockHeight)
    (hall : ∀ e ∈ memberProbeList st, probe e = none) :
    ∃ msg, (connSelect probe rand st).1 = .error msg := by
  have hb := probeAll_all_unreachable probe (memberProbeList st) hall
  rcases hm with hm | hm | hm <;>
    by_cases hl : (memberProbeList st).length = 0 <;>
      simp [connSelect, hm, getEndpointsSummaryMember, getEndpointsSummaryStatic, hl, hb] <;>
        exact ⟨"All endpoints unreachable",
          by rw [if_pos (probeAll_unreachable probe (memberProbeList st) hall)]⟩

/-- Claim C6 (confirmed): in every ranked mode (`'highest-slot'`,
`'fastest'`, `'latest-valid-block-height'`), a refreshing `conn()` call
whose re-probe finds every endpoint unreachable throws, and the
manager's bound connection is exactly what it was before the call — the
manager is never left endpoint-less. -/
theorem c6_refresh_all_unreachable_preserves_binding
    (probe : Endpoint → Option ProbeData) (rand : Nat) (st : ConnectionManagerState)
    (hm : st.config.mode = .highestSlot ∨ st.config.mode = .fastest ∨
      st.config.mode = .latestValidBlockHeight)
    (hall : ∀ e ∈ memberProbeList st, probe e = none) :
    (∃ msg, (conn probe rand st true false).1 = .error msg) ∧
    (conn probe rand st true false).2.connection = st.connection := by
  obtain ⟨msg, hmsg⟩ := connSelect_error_of_unreachable probe rand st hm hall
  have hpres := connSelect_preserves_connection probe rand st
  rcases hsel : connSelect probe rand st with ⟨res, st1⟩
  rw [hsel] at hmsg hpres
  simp at hmsg
  subst hmsg
  simp [conn, hsel]
  exact hpres

/-- Claim C10 (confirmed): every `connSync()`/`conn()` call with
`changeConn = true` assigns the connection it returns to the manager's
single bound-connection slot before returning; with `airdrop = true` it
rebinds the manager to the network-default endpoint; and once the
default endpoint is bound, the next round-robin re-selection restarts
at index 0 of the endpoint list (the rotation no longer continues from
the pre-airdrop endpoint). -/
theorem c10_change_conn_rebinds (st : ConnectionManagerState) (rand : Nat)
    (airdrop : Bool) (probe : Endpoint → Option ProbeData) :
    (∀ c, (connSync st true airdrop rand).1 = .ok c →
      (connSync st true airdrop rand).2.connection = c) ∧
    (∀ c, (conn probe rand st true airdrop).1 = .ok c →
      (conn probe rand st true airdrop).2.connection = c) ∧
    (∀ d, getDefaultEndpoint st.config.network = .ok d →
      connSync st true true rand = (.ok d, { st with connection := d })) ∧
    (st.config.mode = .roundRobin →
      ∀ es, st.config.endpoints = some es →
      ∀ d, getDefaultEndpoint st.config.network = .ok d →
      st.connection = d → d ∉ es →
      ∀ e0, es[0]? = some e0 →
      (connSync st true false rand).1 = .ok e0) := by
  refine ⟨?_, ?_, ?_, ?_⟩
  · intro c hc
    rcases hE : (if airdrop then getDefaultEndpoint st.config.network
        else connSyncSelect st rand) with e | c' <;>
      simp [connSync, hE] at hc ⊢
    exact hc
  · intro c hc
    rcases hE : (if airdrop then (getDefaultEndpoint st.config.network, st)
        else connSelect probe rand st) with ⟨res, st1⟩
    rcases res with e | c' <;>
      simp [conn, hE] at hc ⊢
    exact hc
  · intro d hd
    simp [connSync, hd]
  · intro hm es hes d hd hconn hmem e0 he0
    have hidx : es.indexOf? d = none := by
      rw [List.indexOf?_eq_none_iff]
      intro x hx
      simp only [beq_iff_eq]
      intro h
      exact hmem (h ▸ hx)
    simp [connSync, connSyncSelect, roundRobinNext, hm, hes, hidx, hconn, hd, he0]

end ConnectionManager

/-- A probe oracle under which every endpoint is unreachable. -/
def probeDead : Endpoint → Option ProbeData := fun _ => none

/-- A round-robin manager over `[A, B]` whose bound connection is the
devnet default endpoint (as after an `airdrop = true` call). -/
def stRRDefault : ConnectionManagerState :=
  ⟨"https://api.devnet.solana.com", "A", "A", "A",
    ⟨"devnet", none, some ["A", "B"], .roundRobin⟩, []⟩

/-- Claim C10 witness: concrete rebinds — an airdrop call binds the
devnet default endpoint (both sync and async paths), and the following
round-robin re-selection restarts at `A`. -/
theorem c10_change_conn_rebinds_witness :
    (ConnectionManager.connSync stRRDefault true true 0).2.connection
      = "https://api.devnet.solana.com" ∧
    (ConnectionManager.conn probeDead 0 stRRDefault true true).2.connection
      = "https://api.devnet.solana.com" ∧
    ConnectionManager.connSync stRRDefault true true 0
      = (.ok "https://api.devnet.solana.com",
          { stRRDefault with connection := "https://api.devnet.solana.com" }) ∧
    (ConnectionManager.connSync stRRDefault true false 0).1 = .ok "A" :=
  ⟨(ConnectionManager.c10_change_conn_rebinds stRRDefault 0 true probeDead).1
      "https://api.devnet.solana.com" rfl,
   (ConnectionManager.c10_change_conn_rebinds stRRDefault 0 true probeDead).2.1
      "https://api.devnet.solana.com" rfl,
   (ConnectionManager.c10_change_conn_rebinds stRRDefault 0 true probeDead).2.2.1
      "https://api.devnet.solana.com" rfl,
   (ConnectionManager.c10_change_conn_rebinds stRRDefault 0 false probeDead).2.2.2
      rfl ["A", "B"] rfl "https://api.devnet.solana.com" rfl rfl (by decide) "A" rfl⟩

/-- A manager bound to `A` in mode `'highest-slot'` over `[A, B]`. -/
def stHSBound : ConnectionManagerState :=
  ⟨"A", "A", "A", "A", ⟨"devnet", none, some ["A", "B"], .highestSlot⟩, []⟩

/-- Claim C6 witness: a concrete refreshing call that finds all
endpoints unreachable throws and leaves the binding on `A`. -/
theorem c6_refresh_all_unreachable_witness :
    (∃ msg, (ConnectionManager.conn probeDead 0 stHSBound true false).1 = .error msg) ∧
    (ConnectionManager.conn probeDead 0 stHSBound true false).2.connection
      = stHSBound.connection :=
  ConnectionManager.c6_refresh_all_unreachable_preserves_binding probeDead 0 stHSBound
    (Or.inl rfl) (fun _ _ => rfl)

/-! ## Claim C7 -/

/-- Probe oracle for the `'last'`-mode scenario: both endpoints reachable. -/
def probeLast : Endpoint → Option ProbeData := fun e =>
  if e = "A" then some ⟨10, 5, 50⟩
  else if e = "B" then some ⟨20, 6, 60⟩
  else none

/-- Claim C7 (code bug): under mode `'last'` with the non-empty list
`[A, B]` the constructor executes `rpcUrl = endpoints[-1]`, and a
negative index reads `undefined` in JavaScript, so construction always
falls into the `rpcUrl === undefined` guard and throws
`'No endpoint has been set'` — it never binds the last element `B`. -/
theorem c7_last_mode_never_binds :
    ConnectionManager.getInstance probeLast 0 ⟨"devnet", none, some ["A", "B"], .last⟩
      = (.error "No endpoint has been set", ["A", "B"]) :=
  rfl

/-! ## Claim C9 -/

/-- Claim C9 (code bug): when the wallet's `signTransaction` resolves to
`undefined`, `sign` executes `return signedTx!` — the non-null assertion
is erased at runtime, so the call completes successfully with an
`undefined` result instead of failing as a signing error. -/
theorem c9_wallet_undefined_returned_as_success :
    TransactionWrapper.sign (some (fun _ => none)) none ⟨0, []⟩ = .ok none :=
  rfl

/-! ## Claim C3 -/

namespace TransactionWrapper

/-- Loop exit: once `tries` has reached `maximumRetries` the loop stops
and `'Transaction failed after N tries'` is thrown with the current
`tries` count. -/
theorem sendAndConfirmGo_exit (script : Nat → AttemptOutcome) (m fuel tries warns : Nat)
    (h : ¬ tries < m) :
    sendAndConfirmGo script m (fuel + 1) tries warns =
      (.error ("Transaction failed after " ++ toString tries ++ " tries"), warns) := by
  simp [sendAndConfirmGo, h]

/-- A transport failure is caught, logs one warning and retries. -/
theorem sendAndConfirmGo_fail (script : Nat → AttemptOutcome) (m fuel tries warns : Nat)
    (h : tries < m) (ht : (script tries).isTransport = true) :
    sendAndConfirmGo script m (fuel + 1) tries warns =
      sendAndConfirmGo script m fuel (tries + 1) (warns + 1) := by
  cases hs : script tries with
  | sendThrow => simp [sendAndConfirmGo, h, hs]
  | confirmThrow => simp [sendAndConfirmGo, h, hs]
  | confirmed s e => rw [hs] at ht; simp [AttemptOutcome.isTransport] at ht

/-- A confirmation with a null error payload returns the signature. -/
theorem sendAndConfirmGo_ok (script : Nat → AttemptOutcome) (m fuel tries warns : Nat)
    (sig : String) (h : tries < m) (hs : script tries = .confirmed sig none) :
    sendAndConfirmGo script m (fuel + 1) tries warns = (.ok sig, warns) := by
  simp [sendAndConfirmGo, h, hs]

/-- A confirmation with a non-null error payload rethrows immediately. -/
theorem sendAndConfirmGo_rej (script : Nat → AttemptOutcome) (m fuel tries warns : Nat)
    (sig e : String) (h : tries < m) (hs : script tries = .confirmed sig (some e)) :
    sendAndConfirmGo script m (fuel + 1) tries warns =
      (.error ("RPC failure: " ++ e), warns) := by
  simp [sendAndConfirmGo, h, hs]

/-- If every attempt is a transport failure the loop runs down the
remaining budget `d`, logging one warning per failed attempt. -/
theorem sendAndConfirmGo_all_transport (script : Nat → AttemptOutcome) (m : Nat)
    (hall : ∀ i, (script i).isTransport = true) :
    ∀ (d tries warns : Nat), m = tries + d →
      sendAndConfirmGo script m (d + 1) tries warns =
        (.error ("Transaction failed after " ++ toString m ++ " tries"), warns + d) := by
  intro d
  induction d with
  | zero =>
    intro tries warns h
    have ht : tries = m := by omega
    subst ht
    exact sendAndConfirmGo_exit script tries 0 tries warns (by omega)
  | succ d ih =>
    intro tries warns h
    rw [sendAndConfirmGo_fail script m (d + 1) tries warns (by omega) (hall tries)]
    rw [ih (tries + 1) (warns + 1) (by omega)]
    congr 1
    omega

/-- Claim C3 (confirmed): `sendAndConfirm` retry semantics.
With `maximumRetries ≥ 3`, two leading transport failures followed by a
confirmation with a null error payload return the signature after
exactly 2 logged retry warnings; a first confirmation carrying a
non-null error payload throws on that first attempt with zero retry
warnings (on-chain rejections are never retried); and an all-transport
run exhausts `maximumRetries`, throwing an error carrying the attempt
count (with one warning logged per failed attempt). -/
theorem c3_send_and_confirm_retry_semantics :
    (∀ (script : Nat → AttemptOutcome) (m : Nat) (sig : String),
      3 ≤ m → (script 0).isTransport = true → (script 1).isTransport = true →
      script 2 = .confirmed sig none →
      sendAndConfirm script m = (.ok sig, 2)) ∧
    (∀ (script : Nat → AttemptOutcome) (m : Nat) (sig e : String),
      1 ≤ m → script 0 = .confirmed sig (some e) →
      sendAndConfirm script m = (.error ("RPC failure: " ++ e), 0)) ∧
    (∀ (script : Nat → AttemptOutcome) (m : Nat),
      (∀ i, (script i).isTransport = true) →
      sendAndConfirm script m =
        (.error ("Transaction failed after " ++ toString m ++ " tries"), m)) := by
  refine ⟨?_, ?_, ?_⟩
  · intro script m sig h3 ht0 ht1 hs2
    obtain ⟨k, rfl⟩ : ∃ k, m = k + 3 := ⟨m - 3, by omega⟩
    show sendAndConfirmGo script (k + 3) ((k + 3) + 1) 0 0 = (.ok sig, 2)
    rw [sendAndConfirmGo_fail script (k + 3) (k + 3) 0 0 (by omega) ht0]
    show sendAndConfirmGo script (k + 3) ((k + 2) + 1) 1 1 = (.ok sig, 2)
    rw [sendAndConfirmGo_fail script (k + 3) (k + 2) 1 1 (by omega) ht1]
    show sendAndConfirmGo script (k + 3) ((k + 1) + 1) 2 2 = (.ok sig, 2)
    rw [sendAndConfirmGo_ok script (k + 3) (k + 1) 2 2 sig (by omega) hs2]
  · intro script m sig e h1 hs0
    obtain ⟨k, rfl⟩ : ∃ k, m = k + 1 := ⟨m - 1, by omega⟩
    show sendAndConfirmGo script (k + 1) ((k + 1) + 1) 0 0 = _
    rw [sendAndConfirmGo_rej script (k + 1) (k + 1) 0 0 sig e (by omega) hs0]
  · intro script m hall
    have := sendAndConfirmGo_all_transport script m hall m 0 0 (by omega)
    simpa using this

end TransactionWrapper

/-- Attempt script: two transport failures, then a clean confirmation. -/
def scriptRetryThenOk : Nat → AttemptOutcome := fun i =>
  if i = 0 then .sendThrow
  else if i = 1 then .confirmThrow
  else .confirmed "sigA" none

/-- Attempt script: every confirmation reports an on-chain rejection. -/
def scriptRejected : Nat → AttemptOutcome := fun _ =>
  .confirmed "sigB" (some "InstructionError")

/-- Attempt script: every attempt is a transport failure. -/
def scriptDead : Nat → AttemptOutcome := fun _ => .sendThrow

/-- Claim C3 witness: the three retry-semantics properties evaluated at
concrete scripts and retry limits. -/
theorem c3_retry_semantics_witness :
    TransactionWrapper.sendAndConfirm scriptRetryThenOk 3 = (.ok "sigA", 2) ∧
    TransactionWrapper.sendAndConfirm scriptRejected 5 =
      (.error ("RPC failure: " ++ "InstructionError"), 0) ∧
    TransactionWrapper.sendAndConfirm scriptDead 4 =
      (.error ("Transaction failed after " ++ toString 4 ++ " tries"), 4) :=
  ⟨TransactionWrapper.c3_send_and_confirm_retry_semantics.1 scriptRetryThenOk 3 "sigA"
      (by decide) rfl rfl rfl,
   TransactionWrapper.c3_send_and_confirm_retry_semantics.2.1 scriptRejected 5 "sigB"
      "InstructionError" (by decide) rfl,
   TransactionWrapper.c3_send_and_confirm_retry_semantics.2.2 scriptDead 4 (fun _ => rfl)⟩

/-! ## Claim C8 -/

/-- Reading an existing array is unaffected by a fresh allocation. -/
theorem Store.read_alloc (s : Store) (a : List Ix) (r : ArrRef)
    (hr : r < s.arrays.length) : (s.alloc a).1.read r = s.read r := by
  simp [Store.alloc, Store.read, List.getElem?_append_left hr]

/-- An in-place write is visible through the written reference. -/
theorem Store.read_write_self (s : Store) (a : List Ix) (r : ArrRef)
    (hr : r < s.arrays.length) : (s.write r a).read r = a := by
  simp [Store.write, Store.read, List.getElem?_set_eq_of_lt a hr]

/-- Allocation grows the store by one array. -/
theorem Store.alloc_length (s : Store) (a : List Ix) :
    (s.alloc a).1.arrays.length = s.arrays.length + 1 := by
  simp [Store.alloc]

/-- A builder holding one transfer instruction, not yet built. -/
def preBuilt : TransactionBuilder :=
  TransactionBuilder.create.addSolTransferIx 1 2 3

/-- `preBuilt` built: the second component is the array reference the
built transaction holds. -/
def builtOnce : TransactionBuilder × ArrRef :=
  preBuilt.build

/-- Claim C8 counterexample: `addComputeBudgetIx` called *after*
`build()` changes the already-built transaction's instruction list —
`unshift` mutates in place the very array the built transaction aliases
(it becomes `[computeUnitLimit, computeUnitPrice, transfer]`). -/
theorem c8_post_build_mutation_counterexample :
    (builtOnce.1.addComputeBudgetIx 4 5).store.read builtOnce.2
      ≠ builtOnce.1.store.read builtOnce.2 := by
  decide

/-- Claim C8 (amended): once `build()` has returned a transaction,
`addIx` and `reset` leave the built transaction's instruction list
unchanged (they rebind the builder's fields to freshly allocated
arrays), but `addComputeBudgetIx` prepends the two compute-budget
instructions *in place* to the very array the built transaction aliases,
retroactively mutating it. -/
theorem c8_post_build_operations (b0 : TransactionBuilder) (l : List Ix) (u p : Nat)
    (hi : b0.instructions < b0.store.arrays.length) :
    ∀ (b : TransactionBuilder) (r : ArrRef), TransactionBuilder.build b0 = (b, r) →
      ((b.addIx l).store.read r = b.store.read r) ∧
      (b.reset.store.read r = b.store.read r) ∧
      ((b.addComputeBudgetIx u p).store.read r =
        Ix.computeUnitLimit u :: Ix.computeUnitPrice p :: b.store.read r) := by
  intro b r h
  rw [TransactionBuilder.build] at h
  injection h with h1 h2
  subst h1
  subst h2
  refine ⟨?_, ?_, ?_⟩
  · exact Store.read_alloc _ _ _ hi
  · show ((b0.store.alloc []).1.alloc []).1.read b0.instructions = _
    have hlt : b0.instructions < (b0.store.alloc []).1.arrays.length := by
      rw [Store.alloc_length]
      exact Nat.lt_succ_of_lt hi
    rw [Store.read_alloc (b0.store.alloc []).1 [] b0.instructions hlt]
    exact Store.read_alloc _ _ _ hi
  · exact Store.read_write_self _ _ _ hi

/-- Claim C8 witness: the amended claim evaluated on a concrete builder
holding one transfer instruction. -/
theorem c8_post_build_operations_witness :
    ((builtOnce.1.addIx [Ix.raw 7]).store.read builtOnce.2
      = builtOnce.1.store.read builtOnce.2) ∧
    (builtOnce.1.reset.store.read builtOnce.2
      = builtOnce.1.store.read builtOnce.2) ∧
    ((builtOnce.1.addComputeBudgetIx 4 5).store.read builtOnce.2
      = Ix.computeUnitLimit 4 :: Ix.computeUnitPrice 5
          :: builtOnce.1.store.read builtOnce.2) :=
  c8_post_build_operations preBuilt [Ix.raw 7] 4 5 (by decide) builtOnce.1 builtOnce.2 rfl

end SolToolkit
